import Mathlib

/-!
# Verification of the mapping query generator

Shallow embedding of `src/lib/mapping/query-generator.js`: the statement
builders (`getSelect`, `getInsert`, `getUpdate`, `getDelete`), the rendering
helpers (`_getSingleCondition`, `_getConditionWithOperators`,
`_getUpdateQuery`, `_getInsertQuery`, `_getDeleteQuery`) and the semantics of
the parameter-extraction routines generated by `_valueGetterExpression`,
`_valueGetterSingle`, `_assignmentGetterExpression` and the per-kind
`*ParamsGetter` functions.

JavaScript runtime values are embedded as the inductive `JVal`, which also
carries the `QueryOperator` and `QueryAssignment` wrapper objects (from
`lib/mapping/q.js`, used here only through the fields the generator reads:
`key`, `hasChildValues`, `isInOperator`, `value`, `sign`, `inverted`).
-/

namespace NodejsDriver

/-- A JavaScript value as the query generator observes it: primitives,
arrays, plus the two wrapper classes `QueryOperator(key, value,
hasChildValues, isInOperator)` and `QueryAssignment(sign, inverted, value)`
that the generator discriminates with `instanceof`. -/
inductive JVal where
  | vnum (n : Int)
  | vstr (s : String)
  | vbool (b : Bool)
  | vundefined
  | varr (xs : List JVal)
  | vop (key : String) (hasChildValues : Bool) (isInOperator : Bool) (value : JVal)
  | vassign (sign : String) (inverted : Bool) (value : JVal)

/-- `typeof x === "number"`, the check the generator applies to `ttl` and
`limit` values. -/
def JVal.isNumber : JVal → Bool
  | .vnum _ => true
  | _ => false

/-- JavaScript truthiness, as used by `if (deleteOnlyColumns)`. Objects and
non-empty primitives are truthy; `undefined`, `false`, `0` and `""` are not. -/
def JVal.truthy : JVal → Bool
  | .vnum n => n != 0
  | .vstr s => s != ""
  | .vbool b => b
  | .vundefined => false
  | .varr _ => true
  | .vop _ _ _ _ => true
  | .vassign _ _ _ => true

/-- `x instanceof QueryAssignment`. -/
def JVal.isQueryAssignment : JVal → Bool
  | .vassign _ _ _ => true
  | _ => false

/-- The `.value` property access the generated scripts perform on the
wrapper objects (`doc['p'].value`); reading it from anything else yields
`undefined`. -/
def JVal.dotValue : JVal → JVal
  | .vassign _ _ v => v
  | .vop _ _ _ v => v
  | _ => .vundefined

/-- `Array.prototype.map` with a unary function, as emitted for `IN` values
that need conversion. The `IN` caller contract (spec §3) guarantees the value
is a sequence; on a non-array JavaScript would throw, modelled here as the
value itself (never reached by any theorem below). -/
def JVal.arrayMap (f : JVal → JVal) : JVal → JVal
  | .varr xs => .varr (xs.map f)
  | v => v

/-- `dataTypes.list` from `lib/types`. -/
def dataTypesList : Nat := 0x0020

/-- `dataTypes.counter` from `lib/types`. -/
def dataTypesCounter : Nat := 0x0005

/-- A column of table metadata: its name and its `type.code`. -/
structure ColumnInfo where
  name : String
  typeCode : Nat

/-- The slice of `TableMetadata` the generator reads: `name`,
`partitionKeys`, `clusteringKeys` and `columnsByName` (embedded as the list
of columns, looked up by name). -/
structure TableMetadata where
  name : String
  partitionKeys : List ColumnInfo
  clusteringKeys : List ColumnInfo
  columns : List ColumnInfo

/-- `table.columnsByName[columnName]`, `undefined` when absent. -/
def lookupColumn (table : TableMetadata) (columnName : String) : Option ColumnInfo :=
  table.columns.find? (fun c => c.name == columnName)

/-- A property descriptor (`pInfo`): mapped property name, target column
name, the bound value and whether a model-to-storage conversion applies
(`fromModel` is a function in the source; only its truthiness is read). -/
structure PropertyInfo where
  propertyName : String
  columnName : String
  value : JVal
  fromModel : Bool

/-- A document instance at extraction time: property-name lookup. -/
def Doc : Type := String → JVal

/-- The runtime `docInfo` object a generated params getter reads:
`docInfo['ttl']`, `docInfo['limit']` and `docInfo.when` (an object read by
property name). -/
structure RtDocInfo where
  ttl : JVal
  limit : JVal
  whenDoc : String → JVal

/-- The `docInfo` passed at generation time; the generator reads
`docInfo.ttl` and `docInfo.deleteOnlyColumns` (a missing `docInfo` behaves
as both fields `undefined`). -/
structure GenDocInfo where
  ttl : JVal
  deleteOnlyColumns : JVal

/-- The conversion registry: `mappingInfo.getFromModelFn(propName)`. -/
def MappingInfo : Type := String → JVal → JVal

/-- The shape of every generated parameter-extraction routine:
`(doc, docInfo, mappingInfo) => [...]`. -/
def ParamsGetter : Type := Doc → RtDocInfo → MappingInfo → List JVal

/-- `Array.prototype.join(sep)`. -/
def joinSep (sep : String) : List String → String
  | [] => ""
  | [x] => x
  | x :: y :: xs => x ++ sep ++ joinSep sep (y :: xs)

namespace QueryGenerator

open JVal

/-- `QueryGenerator._getSingleCondition(columnName, value)`. A composite
operator (`hasChildValues`) renders its two children joined by its key; a
scalar operator renders `"<column> <key> ?"`; any other value renders
`"<column> = ?"`. An out-of-range child access (`value.value[i]` undefined)
renders through the default branch, inlined here. -/
def getSingleCondition (columnName : String) : JVal → String
  | .vop key true _ (.varr (l :: r :: _)) =>
      getSingleCondition columnName l ++ " " ++ key ++ " " ++
        getSingleCondition columnName r
  | .vop key true _ (.varr [l]) =>
      getSingleCondition columnName l ++ " " ++ key ++ " " ++
        (columnName ++ " = ?")
  | .vop key true _ (.varr []) =>
      (columnName ++ " = ?") ++ " " ++ key ++ " " ++ (columnName ++ " = ?")
  | .vop key true _ (.vnum _) =>
      (columnName ++ " = ?") ++ " " ++ key ++ " " ++ (columnName ++ " = ?")
  | .vop key true _ (.vstr _) =>
      (columnName ++ " = ?") ++ " " ++ key ++ " " ++ (columnName ++ " = ?")
  | .vop key true _ (.vbool _) =>
      (columnName ++ " = ?") ++ " " ++ key ++ " " ++ (columnName ++ " = ?")
  | .vop key true _ .vundefined =>
      (columnName ++ " = ?") ++ " " ++ key ++ " " ++ (columnName ++ " = ?")
  | .vop key true _ (.vop _ _ _ _) =>
      (columnName ++ " = ?") ++ " " ++ key ++ " " ++ (columnName ++ " = ?")
  | .vop key true _ (.vassign _ _ _) =>
      (columnName ++ " = ?") ++ " " ++ key ++ " " ++ (columnName ++ " = ?")
  | .vop key false _ _ => columnName ++ " " ++ key ++ " ?"
  | _ => columnName ++ " = ?"

/-- `QueryGenerator._getConditionWithOperators(propertiesInfo)`. -/
def getConditionWithOperators (propertiesInfo : List PropertyInfo) : String :=
  joinSep " AND "
    (propertiesInfo.map (fun p => getSingleCondition p.columnName p.value))

/-- `QueryGenerator.getSelect(tableName, keyspace, propertiesInfo,
fieldsInfo, orderByColumns, allowFilter, limit)`. Note the `allowFilter`
parameter is never read in the body. -/
def getSelect (tableName keyspace : String)
    (propertiesInfo fieldsInfo : List PropertyInfo)
    (orderByColumns : List (String × String)) (allowFilter : JVal)
    (limit : JVal) : String :=
  let query := "SELECT " ++
    (if 0 < fieldsInfo.length then
        joinSep ", " (fieldsInfo.map (fun p => p.columnName))
      else "*")
  let query := query ++ (" FROM " ++ keyspace ++ "." ++ tableName)
  let query := if 0 < propertiesInfo.length then
      query ++ " WHERE " ++ getConditionWithOperators propertiesInfo
    else query
  let query := if 0 < orderByColumns.length then
      query ++ " ORDER BY " ++
        joinSep ", " (orderByColumns.map (fun o => o.1 ++ " " ++ o.2))
    else query
  let query := if limit.isNumber then query ++ " LIMIT ?" else query
  query ++ " ALLOW FILTERING"

/-- Semantics of the expression text `QueryGenerator._valueGetterSingle`
generates for one binding, evaluated against the runtime value the script's
fixed access path reaches (under the caller contract, spec §7, the runtime
value carries the same wrapper structure as the compile-time binding value
the script was generated from). A composite operator contributes its two
children's parameters consecutively; an `IN` operator with conversion
contributes one array whose elements are individually converted; otherwise
the (unwrapped) value is contributed, converted when `fromModel` holds. An
out-of-range child access (`.value[i]` undefined) contributes what the
default branch emits for `undefined`, inlined here. -/
def valueGetterSingle (mappingInfo : MappingInfo) (propName : String)
    (fromModel : Bool) : JVal → List JVal
  | .vop _ true _ (.varr (l :: r :: _)) =>
      valueGetterSingle mappingInfo propName fromModel l ++
        valueGetterSingle mappingInfo propName fromModel r
  | .vop _ true _ (.varr [l]) =>
      valueGetterSingle mappingInfo propName fromModel l ++
        [if fromModel then mappingInfo propName .vundefined else .vundefined]
  | .vop _ true _ (.varr []) =>
      [if fromModel then mappingInfo propName .vundefined else .vundefined,
        if fromModel then mappingInfo propName .vundefined else .vundefined]
  | .vop _ true _ (.vnum _) =>
      [if fromModel then mappingInfo propName .vundefined else .vundefined,
        if fromModel then mappingInfo propName .vundefined else .vundefined]
  | .vop _ true _ (.vstr _) =>
      [if fromModel then mappingInfo propName .vundefined else .vundefined,
        if fromModel then mappingInfo propName .vundefined else .vundefined]
  | .vop _ true _ (.vbool _) =>
      [if fromModel then mappingInfo propName .vundefined else .vundefined,
        if fromModel then mappingInfo propName .vundefined else .vundefined]
  | .vop _ true _ .vundefined =>
      [if fromModel then mappingInfo propName .vundefined else .vundefined,
        if fromModel then mappingInfo propName .vundefined else .vundefined]
  | .vop _ true _ (.vop _ _ _ _) =>
      [if fromModel then mappingInfo propName .vundefined else .vundefined,
        if fromModel then mappingInfo propName .vundefined else .vundefined]
  | .vop _ true _ (.vassign _ _ _) =>
      [if fromModel then mappingInfo propName .vundefined else .vundefined,
        if fromModel then mappingInfo propName .vundefined else .vundefined]
  | .vop _ false isIn v =>
      if isIn && fromModel then [JVal.arrayMap (mappingInfo propName) v]
      else if fromModel then [mappingInfo propName v]
      else [v]
  | v => [if fromModel then mappingInfo propName v else v]

/-- Semantics of `QueryGenerator._valueGetterExpression(propertiesInfo,
objectName)`: the comma-joined per-binding expressions, reading each binding
by property name from the designated runtime object (`doc` or
`docInfo.when`, passed here as `doc`). -/
def valueGetterExpression (mappingInfo : MappingInfo) (doc : Doc)
    (propertiesInfo : List PropertyInfo) : List JVal :=
  propertiesInfo.flatMap (fun p =>
    valueGetterSingle mappingInfo p.propertyName p.fromModel
      (doc p.propertyName))

/-- Semantics of `QueryGenerator._assignmentGetterExpression`: one value per
binding, unwrapping `.value` when the compile-time binding value is a
`QueryAssignment`, then converting when `fromModel` holds. -/
def assignmentGetterExpression (mappingInfo : MappingInfo) (doc : Doc)
    (propertiesInfo : List PropertyInfo) : List JVal :=
  propertiesInfo.map (fun p =>
    let valueGetter :=
      if p.value.isQueryAssignment then (doc p.propertyName).dotValue
      else doc p.propertyName
    if p.fromModel then mappingInfo p.propertyName valueGetter
    else valueGetter)

/-- Semantics of `QueryGenerator.selectParamsGetter(propertiesInfo, limit)`:
the where-binding values in order, then `docInfo['limit']` when a numeric
limit was requested at generation time. -/
def selectParamsGetter (propertiesInfo : List PropertyInfo) (limit : JVal) :
    ParamsGetter :=
  fun doc docInfo mappingInfo =>
    valueGetterExpression mappingInfo doc propertiesInfo ++
      (if limit.isNumber then [docInfo.limit] else [])

/-- `QueryGenerator._getInsertQuery(tableName, keyspace, propertiesInfo,
ifNotExists, ttl, allowFilter)`; `allowFilter` is never read in the body. -/
def getInsertQuery (tableName keyspace : String)
    (propertiesInfo : List PropertyInfo) (ifNotExists : Bool)
    (ttl allowFilter : JVal) : String :=
  let query := "INSERT INTO " ++ keyspace ++ "." ++ tableName ++ " ("
  let query := query ++ joinSep ", " (propertiesInfo.map (fun p => p.columnName))
  let query := query ++ ") VALUES ("
  let query := query ++ joinSep ", " (propertiesInfo.map (fun _ => "?"))
  let query := query ++ ")"
  let query := if ifNotExists = true then query ++ " IF NOT EXISTS" else query
  if ttl.isNumber then query ++ " USING TTL ?" else query

/-- Semantics of `QueryGenerator._insertParamsGetter(propertiesInfo,
docInfo)`: the binding values in order, then `docInfo['ttl']` when the
generation-time `docInfo.ttl` was numeric. -/
def insertParamsGetter (propertiesInfo : List PropertyInfo)
    (genInfo : GenDocInfo) : ParamsGetter :=
  fun doc docInfo mappingInfo =>
    valueGetterExpression mappingInfo doc propertiesInfo ++
      (if genInfo.ttl.isNumber then [docInfo.ttl] else [])

/-- The record `getInsert` / `getDelete` return:
`{query, paramsGetter, isIdempotent}`. -/
structure GeneratedStatement where
  query : String
  paramsGetter : ParamsGetter
  isIdempotent : Bool

/-- `QueryGenerator.getInsert(table, keyspace, propertiesInfo, docInfo,
ifNotExists, allowFilter)`. -/
def getInsert (table : TableMetadata) (keyspace : String)
    (propertiesInfo : List PropertyInfo) (docInfo : GenDocInfo)
    (ifNotExists : Bool) (allowFilter : JVal) : GeneratedStatement :=
  let ttl := docInfo.ttl
  -- Not all columns are contained in the table
  let filteredPropertiesInfo := propertiesInfo.filter (fun pInfo =>
    (lookupColumn table pInfo.columnName).isSome)
  { query := getInsertQuery table.name keyspace filteredPropertiesInfo
      ifNotExists ttl allowFilter
    paramsGetter := insertParamsGetter filteredPropertiesInfo docInfo
    isIdempotent := !ifNotExists }

/-- The scan `getUpdate` performs inside its `filter` callback: drop
bindings whose column the table lacks and, for the surviving ones, flip
`isIdempotent` off on a list column bound to a `QueryAssignment` or on a
counter column (which also sets `isCounter`). Returns
`(filteredPropertiesInfo, isIdempotent, isCounter)`. -/
def updateScan (table : TableMetadata) :
    List PropertyInfo → List PropertyInfo × Bool × Bool
  | [] => ([], true, false)
  | p :: rest =>
    match lookupColumn table p.columnName with
    | none => updateScan table rest
    | some column =>
      let s := updateScan table rest
      if column.typeCode == dataTypesList && p.value.isQueryAssignment then
        -- Its not idempotent when list append/prepend
        (p :: s.1, false, s.2.2)
      else if column.typeCode == dataTypesCounter then
        -- Any update on a counter table is not idempotent
        (p :: s.1, false, true)
      else
        (p :: s.1, s.2.1, s.2.2)

/-- `QueryGenerator._getUpdateQuery(tableName, keyspace, primaryKeys,
propertiesInfo, when, ifExists, allowFilter, ttl)` — this parameter order is
the source's signature; note `getUpdate` calls it with `ttl` and
`allowFilter` in the opposite order. `allowFilter` is never read. -/
def getUpdateQuery (tableName keyspace : String) (primaryKeys : List String)
    (propertiesInfo whenClause : List PropertyInfo) (ifExists : Bool)
    (allowFilter ttl : JVal) : String :=
  let query := "UPDATE " ++ keyspace ++ "." ++ tableName ++ " "
  let query := if ttl.isNumber then query ++ "USING TTL ? " else query
  let query := query ++ "SET "
  let query := query ++ joinSep ", "
    ((propertiesInfo.filter (fun p => !primaryKeys.contains p.columnName)).map
      (fun p =>
        match p.value with
        | .vassign sign true _ =>
            -- e.g: prepend "col1 = ? + col1"
            p.columnName ++ " = ? " ++ sign ++ " " ++ p.columnName
        | .vassign sign false _ =>
            -- e.g: increment "col1 = col1 + ?"
            p.columnName ++ " = " ++ p.columnName ++ " " ++ sign ++ " ?"
        | _ => p.columnName ++ " = ?"))
  let query := query ++ " WHERE "
  let query := query ++ joinSep " AND "
    ((propertiesInfo.filter (fun p => primaryKeys.contains p.columnName)).map
      (fun p => p.columnName ++ " = ?"))
  if ifExists = true then query ++ " IF EXISTS"
  else if 0 < whenClause.length then
    query ++ (" IF " ++ getConditionWithOperators whenClause)
  else query

/-- Semantics of `QueryGenerator._updateParamsGetter(primaryKeys,
propertiesInfo, when, ttl)`: `docInfo['ttl']` first when `ttl` is numeric,
then the mutated (non-primary-key) assignment values in order, then the
identifying (primary-key) values in order, then the when-condition values
read from `docInfo.when`. The generated script joins the two middle segment
expression lists with a comma inside one array literal; with both segments
non-empty (an UPDATE carries at least one mutated and one identifying
column by caller contract) that is exactly list concatenation. -/
def updateParamsGetter (primaryKeys : List String)
    (propertiesInfo whenClause : List PropertyInfo) (ttl : JVal) :
    ParamsGetter :=
  fun doc docInfo mappingInfo =>
    (if ttl.isNumber then [docInfo.ttl] else []) ++
    assignmentGetterExpression mappingInfo doc
      (propertiesInfo.filter (fun p => !primaryKeys.contains p.columnName)) ++
    valueGetterExpression mappingInfo doc
      (propertiesInfo.filter (fun p => primaryKeys.contains p.columnName)) ++
    (if 0 < whenClause.length then
        valueGetterExpression mappingInfo docInfo.whenDoc whenClause
      else [])

/-- The record `getUpdate` returns:
`{query, isIdempotent, paramsGetter, isCounter}`. -/
structure UpdateStatement where
  query : String
  isIdempotent : Bool
  paramsGetter : ParamsGetter
  isCounter : Bool

/-- `QueryGenerator.getUpdate(table, keyspace, propertiesInfo, docInfo,
when, ifExists, allowFilter)`. The call to `_getUpdateQuery` passes the
arguments in the source call-site order `(..., ifExists, ttl, allowFilter)`
against the signature order `(..., ifExists, allowFilter, ttl)`: `ttl`
lands in the unused `allowFilter` slot and `allowFilter` in the `ttl` slot. -/
def getUpdate (table : TableMetadata) (keyspace : String)
    (propertiesInfo : List PropertyInfo) (docInfo : GenDocInfo)
    (whenClause : List PropertyInfo) (ifExists : Bool) (allowFilter : JVal) :
    UpdateStatement :=
  let ttl := docInfo.ttl
  let primaryKeys :=
    (table.partitionKeys ++ table.clusteringKeys).map (fun c => c.name)
  let s := updateScan table propertiesInfo
  { query := getUpdateQuery table.name keyspace primaryKeys s.1 whenClause
      ifExists ttl allowFilter
    isIdempotent := s.2.1 && whenClause.length == 0 && !ifExists
    paramsGetter := updateParamsGetter primaryKeys s.1 whenClause ttl
    isCounter := s.2.2 }

/-- `QueryGenerator._getDeleteQuery(tableName, keyspace, primaryKeys,
propertiesInfo, when, ifExists, deleteOnlyColumns)`. -/
def getDeleteQuery (tableName keyspace : String) (primaryKeys : List String)
    (propertiesInfo whenClause : List PropertyInfo) (ifExists : Bool)
    (deleteOnlyColumns : JVal) : String :=
  let query := "DELETE"
  let query := if deleteOnlyColumns.truthy then
      let columnsToDelete := joinSep ", "
        ((propertiesInfo.filter
            (fun p => !primaryKeys.contains p.columnName)).map
          (fun p => p.columnName))
      if columnsToDelete = "" then query else query ++ " " ++ columnsToDelete
    else query
  let query := query ++ (" FROM " ++ keyspace ++ "." ++ tableName ++ " WHERE ")
  let query := query ++ joinSep " AND "
    ((propertiesInfo.filter (fun p => primaryKeys.contains p.columnName)).map
      (fun p => p.columnName ++ " = ?"))
  if ifExists = true then query ++ " IF EXISTS"
  else if 0 < whenClause.length then
    query ++ (" IF " ++ getConditionWithOperators whenClause)
  else query

/-- Semantics of `QueryGenerator._deleteParamsGetter(primaryKeys,
propertiesInfo, when)`: identifying values in order, then the
when-condition values read from `docInfo.when`. -/
def deleteParamsGetter (primaryKeys : List String)
    (propertiesInfo whenClause : List PropertyInfo) : ParamsGetter :=
  fun doc docInfo mappingInfo =>
    valueGetterExpression mappingInfo doc
      (propertiesInfo.filter (fun p => primaryKeys.contains p.columnName)) ++
    (if 0 < whenClause.length then
        valueGetterExpression mappingInfo docInfo.whenDoc whenClause
      else [])

/-- `QueryGenerator.getDelete(table, keyspace, propertiesInfo, docInfo,
when, ifExists)`. -/
def getDelete (table : TableMetadata) (keyspace : String)
    (propertiesInfo : List PropertyInfo) (docInfo : GenDocInfo)
    (whenClause : List PropertyInfo) (ifExists : Bool) : GeneratedStatement :=
  let deleteOnlyColumns := docInfo.deleteOnlyColumns
  let primaryKeys :=
    (table.partitionKeys ++ table.clusteringKeys).map (fun c => c.name)
  let filteredPropertiesInfo := propertiesInfo.filter (fun pInfo =>
    (lookupColumn table pInfo.columnName).isSome)
  { query := getDeleteQuery table.name keyspace primaryKeys
      filteredPropertiesInfo whenClause ifExists deleteOnlyColumns
    paramsGetter := deleteParamsGetter primaryKeys filteredPropertiesInfo
      whenClause
    isIdempotent := whenClause.length == 0 && !ifExists }

end QueryGenerator

/-! ## Derived notions used by the statements -/

/-- Number of `?` placeholders in a query text. -/
def countPlaceholders (s : String) : Nat :=
  s.data.countP (fun c => c == '?')

/-- The primary-key column-name set `getUpdate`/`getDelete` build:
partition-key names followed by clustering-key names. -/
def pkNames (table : TableMetadata) : List String :=
  (table.partitionKeys ++ table.clusteringKeys).map (fun c => c.name)

/-- A binding that survives filtering, targets a list-typed column and is
bound to a `QueryAssignment` (the first non-idempotency trigger of the
update scan). -/
def listAssignBinding (table : TableMetadata) (p : PropertyInfo) : Bool :=
  match lookupColumn table p.columnName with
  | some c => c.typeCode == dataTypesList && p.value.isQueryAssignment
  | none => false

/-- A binding that survives filtering and targets a counter-typed column
(the second non-idempotency trigger of the update scan). -/
def counterBinding (table : TableMetadata) (p : PropertyInfo) : Bool :=
  match lookupColumn table p.columnName with
  | some c => c.typeCode == dataTypesCounter
  | none => false

/-! ## Helper lemmas -/

/-- Appending conditionally, expressed as an append of a conditional. -/
theorem ite_append_right (c : Prop) [Decidable c] (q t : String) :
    (if c then q ++ t else q) = q ++ (if c then t else "") := by
  split <;> simp

/-- `updateScan` is the schema filter together with the classification
flags, the flags expressed as scans over the input list (the two trigger
predicates are false on dropped bindings, so scanning the input list and
scanning the surviving list agree). -/
theorem updateScan_eq (table : TableMetadata) (props : List PropertyInfo) :
    QueryGenerator.updateScan table props =
      (props.filter (fun p => (lookupColumn table p.columnName).isSome),
        (!props.any (listAssignBinding table) &&
          !props.any (counterBinding table)),
        props.any (counterBinding table)) := by
  induction props with
  | nil => rfl
  | cons p rest ih =>
    simp only [QueryGenerator.updateScan, List.filter_cons, List.any_cons]
    cases hl : lookupColumn table p.columnName with
    | none =>
      simp [listAssignBinding, counterBinding, hl, ih]
    | some c =>
      by_cases h1 : (c.typeCode == dataTypesList && p.value.isQueryAssignment) = true
      · have hc : (c.typeCode == dataTypesCounter) = false := by
          rcases (Bool.and_eq_true _ _).mp h1 with ⟨h1a, _⟩
          have : c.typeCode = dataTypesList := by simpa using h1a
          simp [this, dataTypesList, dataTypesCounter]
        simp [listAssignBinding, counterBinding, hl, ih, h1, hc]
      · by_cases h2 : (c.typeCode == dataTypesCounter) = true
        · have hla : listAssignBinding table p = false := by
            simp [listAssignBinding, hl, h1]
          simp [counterBinding, hl, ih, h1, h2, hla]
        · simp [listAssignBinding, counterBinding, hl, ih, h1, h2]

/-- The per-binding extraction never contributes zero parameters. -/
theorem valueGetterSingle_ne_nil (mappingInfo : MappingInfo)
    (propName : String) (fromModel : Bool) :
    ∀ v : JVal,
      QueryGenerator.valueGetterSingle mappingInfo propName fromModel v ≠ []
  | .vnum _ => by simp [QueryGenerator.valueGetterSingle]
  | .vstr _ => by simp [QueryGenerator.valueGetterSingle]
  | .vbool _ => by simp [QueryGenerator.valueGetterSingle]
  | .vundefined => by simp [QueryGenerator.valueGetterSingle]
  | .varr _ => by simp [QueryGenerator.valueGetterSingle]
  | .vassign _ _ _ => by simp [QueryGenerator.valueGetterSingle]
  | .vop _ false _ _ => by
      simp only [QueryGenerator.valueGetterSingle]
      split
      · simp
      · split <;> simp
  | .vop _ true _ (.varr (l :: r :: rest)) => by
      have hl := valueGetterSingle_ne_nil mappingInfo propName fromModel l
      simp only [QueryGenerator.valueGetterSingle]
      intro hc
      exact hl (List.append_eq_nil.mp hc).1
  | .vop _ true _ (.varr [l]) => by
      simp [QueryGenerator.valueGetterSingle]
  | .vop _ true _ (.varr []) => by simp [QueryGenerator.valueGetterSingle]
  | .vop _ true _ (.vnum _) => by simp [QueryGenerator.valueGetterSingle]
  | .vop _ true _ (.vstr _) => by simp [QueryGenerator.valueGetterSingle]
  | .vop _ true _ (.vbool _) => by simp [QueryGenerator.valueGetterSingle]
  | .vop _ true _ .vundefined => by simp [QueryGenerator.valueGetterSingle]
  | .vop _ true _ (.vop _ _ _ _) => by simp [QueryGenerator.valueGetterSingle]
  | .vop _ true _ (.vassign _ _ _) => by
      simp [QueryGenerator.valueGetterSingle]

/-- Joining a non-empty list of non-empty strings is non-empty. -/
theorem joinSep_ne_empty (sep : String) (hsep : sep ≠ "") :
    ∀ l : List String, l ≠ [] → (∀ s ∈ l, s ≠ "") → joinSep sep l ≠ ""
  | [], h, _ => absurd rfl h
  | [x], _, hall => by simpa [joinSep] using hall x (by simp)
  | x :: y :: xs, _, hall => by
      have hx : x ≠ "" := hall x (by simp)
      simp only [joinSep]
      intro hc
      have hlen : (x ++ sep ++ joinSep sep (y :: xs)).length = 0 := by
        rw [hc]; rfl
      rw [String.length_append, String.length_append] at hlen
      have : sep.length = 0 := by omega
      exact hsep (by cases sep with
        | mk data => cases data with
          | nil => rfl
          | cons c cs => simp [String.length] at this)

/-! ## Concrete fixtures -/

/-- A table `ks.t` with primary key `id` (int) and a regular int column
`a`. -/
def fixTable : TableMetadata :=
  ⟨"t", [⟨"id", 9⟩], [], [⟨"id", 9⟩, ⟨"a", 9⟩]⟩

/-- A binding mutating the regular column `a`. -/
def fixBindA : PropertyInfo := ⟨"a", "a", .vnum 1, false⟩

/-- A binding identifying the row by `id`. -/
def fixBindId : PropertyInfo := ⟨"id", "id", .vnum 2, false⟩

/-- A binding whose column `zz` no table above contains. -/
def fixBindUnknown : PropertyInfo := ⟨"zz", "zz", .vnum 9, false⟩

/-- A document carrying the two mapped properties. -/
def fixDoc : Doc := fun s => if s = "a" then .vnum 1 else .vnum 2

/-- Runtime call options carrying `ttl = 5`. -/
def fixRtInfo : RtDocInfo := ⟨.vnum 5, .vundefined, fun _ => .vundefined⟩

/-- An identity conversion registry. -/
def fixMapping : MappingInfo := fun _ v => v

/-- A table whose single (partition-key) column `pk` is counter-typed. -/
def fixCounterPkTable : TableMetadata :=
  ⟨"t", [⟨"pk", 5⟩], [], [⟨"pk", 5⟩]⟩

/-- A binding identifying the row of `fixCounterPkTable` by `pk`. -/
def fixBindPk : PropertyInfo := ⟨"pk", "pk", .vnum 1, false⟩

/-! ## Claims -/

/-- **C1** — claimed: for every statement kind, the number of `?`
placeholders in the generated query text equals the length of the list the
paired extraction routine returns. The code violates this for UPDATE with a
numeric time-to-live: `getUpdate` passes `ttl` and `allowFilter` to
`_getUpdateQuery` in swapped positions, so the query never renders
`USING TTL ?`, while `_updateParamsGetter` (called with the real `ttl`)
still emits `docInfo['ttl']` first. At the concrete failing input —
table `t(id pk, a)`, bindings `[a, id]`, `docInfo.ttl = 5`, no when-clause,
no ifExists — the query text has 2 placeholders but the extraction routine
returns 3 values. -/
theorem c1_update_ttl_placeholder_count_mismatch :
    countPlaceholders
        (QueryGenerator.getUpdate fixTable "ks" [fixBindA, fixBindId]
          ⟨.vnum 5, .vundefined⟩ [] false (.vbool false)).query = 2 ∧
    ((QueryGenerator.getUpdate fixTable "ks" [fixBindA, fixBindId]
          ⟨.vnum 5, .vundefined⟩ [] false (.vbool false)).paramsGetter
        fixDoc fixRtInfo fixMapping).length = 3 := by
  exact ⟨by decide, by decide⟩

/-- **C2** — claimed: when the call options carry a numeric time-to-live,
the generated UPDATE query contains `USING TTL ?` between the table
reference and `SET`. The code never renders the clause: at the same
concrete input as C1 (`docInfo.ttl = 5`), the query text comes out without
any `USING TTL` because the `typeof ttl === "number"` test inside
`_getUpdateQuery` actually inspects the boolean `allowFilter` argument that
the swapped call site put in the `ttl` slot. -/
theorem c2_update_ttl_clause_never_rendered :
    (QueryGenerator.getUpdate fixTable "ks" [fixBindA, fixBindId]
        ⟨.vnum 5, .vundefined⟩ [] false (.vbool false)).query =
      "UPDATE ks.t SET a = ? WHERE id = ?" := by
  decide

/-- **C3** — for every select construction the returned query text ends
with ` ALLOW FILTERING`, and the text is independent of the
filtering-permission flag: two calls differing only in `allowFilter` yield
the same string. -/
theorem c3_select_allow_filtering_unconditional
    (tableName keyspace : String)
    (propertiesInfo fieldsInfo : List PropertyInfo)
    (orderByColumns : List (String × String)) (af₁ af₂ limit : JVal) :
    QueryGenerator.getSelect tableName keyspace propertiesInfo fieldsInfo
        orderByColumns af₁ limit =
      QueryGenerator.getSelect tableName keyspace propertiesInfo fieldsInfo
        orderByColumns af₂ limit ∧
    ∃ s, QueryGenerator.getSelect tableName keyspace propertiesInfo
        fieldsInfo orderByColumns af₁ limit = s ++ " ALLOW FILTERING" :=
  ⟨rfl, ⟨_, rfl⟩⟩

/-- **C5** — for every insert construction the idempotent flag is the
negation of `ifNotExists`, independent of the schema, the bindings, the
time-to-live and the remaining call options. -/
theorem c5_insert_idempotent_iff_not_ifNotExists
    (table : TableMetadata) (keyspace : String)
    (propertiesInfo : List PropertyInfo) (docInfo : GenDocInfo)
    (ifNotExists : Bool) (allowFilter : JVal) :
    (QueryGenerator.getInsert table keyspace propertiesInfo docInfo
        ifNotExists allowFilter).isIdempotent = !ifNotExists :=
  rfl

/-- **C8** — a composite `ComparisonValue` at any nesting depth renders as
the rendering of its left child, then its connector operator, then the
rendering of its right child; and the extraction routine emits the left
child's parameter(s) immediately followed by the right child's, both under
the same conversion flag. -/
theorem c8_composite_rendering_and_params
    (columnName key propName : String) (isIn fromModel : Bool)
    (l r : JVal) (rest : List JVal) (mappingInfo : MappingInfo) :
    QueryGenerator.getSingleCondition columnName
        (.vop key true isIn (.varr (l :: r :: rest))) =
      QueryGenerator.getSingleCondition columnName l ++ " " ++ key ++ " " ++
        QueryGenerator.getSingleCondition columnName r ∧
    QueryGenerator.valueGetterSingle mappingInfo propName fromModel
        (.vop key true isIn (.varr (l :: r :: rest))) =
      QueryGenerator.valueGetterSingle mappingInfo propName fromModel l ++
        QueryGenerator.valueGetterSingle mappingInfo propName fromModel r :=
  ⟨rfl, rfl⟩

/-- **C9** — a binding flagged as needing conversion whose value is a
membership (`IN`) comparison over a sequence yields exactly one extracted
parameter: the array whose i-th element is the conversion routine (looked
up by the binding's property name) applied to the i-th element of the
bound sequence. -/
theorem c9_in_conversion_one_array_param
    (mappingInfo : MappingInfo) (propName key : String) (xs : List JVal) :
    QueryGenerator.valueGetterSingle mappingInfo propName true
        (.vop key false true (.varr xs)) =
      [.varr (xs.map (mappingInfo propName))] :=
  rfl

/-- **C4, counterexample** — the claim restricts the counter / list-assign
triggers to *mutated* bindings, but the scan in `getUpdate` runs over all
surviving bindings before the mutated/identifying partition. On a table
whose counter column `pk` is the partition key, with the single identifying
binding `pk`, an empty when-clause and `ifExists = false`, not one mutated
binding survives — the claim then demands `idempotent = true` and
`isCounter = false` — yet the code returns `idempotent = false` and
`isCounter = true`. -/
theorem c4_counterexample_identifying_counter :
    ((QueryGenerator.updateScan fixCounterPkTable [fixBindPk]).1.filter
        (fun p => !(pkNames fixCounterPkTable).contains p.columnName)).length
      = 0 ∧
    (QueryGenerator.getUpdate fixCounterPkTable "ks" [fixBindPk]
        ⟨.vundefined, .vundefined⟩ [] false (.vbool false)).isIdempotent = false ∧
    (QueryGenerator.getUpdate fixCounterPkTable "ks" [fixBindPk]
        ⟨.vundefined, .vundefined⟩ [] false (.vbool false)).isCounter = true := by
  exact ⟨by decide, by decide, by decide⟩

/-- **C4, amended** — the update classification, with "mutated" corrected
to "surviving": `isCounter` holds exactly when some surviving binding
targets a counter-typed column, and the statement is idempotent exactly
when no surviving binding targets a list-typed column with an
`AssignmentValue`, no surviving binding targets a counter-typed column,
the when-clause is empty and `ifExists` is false. (Both trigger predicates
are false on dropped bindings, so scanning the caller list and scanning
the surviving list agree.) -/
theorem c4_amended_update_flags (table : TableMetadata) (keyspace : String)
    (propertiesInfo : List PropertyInfo) (docInfo : GenDocInfo)
    (whenClause : List PropertyInfo) (ifExists : Bool) (allowFilter : JVal) :
    (QueryGenerator.getUpdate table keyspace propertiesInfo docInfo
        whenClause ifExists allowFilter).isCounter =
      propertiesInfo.any (counterBinding table) ∧
    (QueryGenerator.getUpdate table keyspace propertiesInfo docInfo
        whenClause ifExists allowFilter).isIdempotent =
      (!propertiesInfo.any (listAssignBinding table) &&
        (!propertiesInfo.any (counterBinding table) &&
          ((whenClause.length == 0) && !ifExists))) := by
  constructor
  · simp [QueryGenerator.getUpdate, updateScan_eq]
  · simp [QueryGenerator.getUpdate, updateScan_eq, Bool.and_assoc]

/-- **C6** — for insert, update and delete the builder and the parameter
compiler share one filtered binding list: a binding whose column the table
lacks changes nothing (neither query text, nor extraction routine, nor
flags), and the surviving bindings keep the caller-supplied relative order
(the filtered list is a sublist of the input, never resorted). -/
theorem c6_unknown_column_symmetric_drop (table : TableMetadata)
    (keyspace : String) (left right : List PropertyInfo) (p : PropertyInfo)
    (docInfo : GenDocInfo) (whenClause : List PropertyInfo)
    (ifNotExists ifExists : Bool) (allowFilter : JVal)
    (h : (lookupColumn table p.columnName).isNone = true) :
    QueryGenerator.getInsert table keyspace (left ++ p :: right) docInfo
        ifNotExists allowFilter =
      QueryGenerator.getInsert table keyspace (left ++ right) docInfo
        ifNotExists allowFilter ∧
    QueryGenerator.getUpdate table keyspace (left ++ p :: right) docInfo
        whenClause ifExists allowFilter =
      QueryGenerator.getUpdate table keyspace (left ++ right) docInfo
        whenClause ifExists allowFilter ∧
    QueryGenerator.getDelete table keyspace (left ++ p :: right) docInfo
        whenClause ifExists =
      QueryGenerator.getDelete table keyspace (left ++ right) docInfo
        whenClause ifExists ∧
    ((left ++ p :: right).filter
        (fun q => (lookupColumn table q.columnName).isSome)).Sublist
      (left ++ p :: right) := by
  have hnone : lookupColumn table p.columnName = none :=
    Option.isNone_iff_eq_none.mp h
  have hfilter : (left ++ p :: right).filter
      (fun q => (lookupColumn table q.columnName).isSome) =
      (left ++ right).filter
        (fun q => (lookupColumn table q.columnName).isSome) := by
    simp [List.filter_append, List.filter_cons, hnone]
  have hla : listAssignBinding table p = false := by
    simp [listAssignBinding, hnone]
  have hcb : counterBinding table p = false := by
    simp [counterBinding, hnone]
  refine ⟨?_, ?_, ?_, List.filter_sublist _⟩
  · simp only [QueryGenerator.getInsert, hfilter]
  · simp only [QueryGenerator.getUpdate, updateScan_eq, List.any_append,
      List.any_cons, hla, hcb, Bool.false_or, hfilter]
  · simp only [QueryGenerator.getDelete, hfilter]

/-- Witness for C6: dropping the unknown-column binding `zz` from the
middle of the list changes none of the three generated statements, and
filtering preserves order. -/
theorem c6_witness :
    (lookupColumn fixTable fixBindUnknown.columnName).isNone = true ∧
    (QueryGenerator.getInsert fixTable "ks"
          ([fixBindA] ++ fixBindUnknown :: [fixBindId]) ⟨.vundefined, .vundefined⟩
          false (.vbool false) =
        QueryGenerator.getInsert fixTable "ks" ([fixBindA] ++ [fixBindId])
          ⟨.vundefined, .vundefined⟩ false (.vbool false) ∧
      QueryGenerator.getUpdate fixTable "ks"
          ([fixBindA] ++ fixBindUnknown :: [fixBindId]) ⟨.vundefined, .vundefined⟩
          [] false (.vbool false) =
        QueryGenerator.getUpdate fixTable "ks" ([fixBindA] ++ [fixBindId])
          ⟨.vundefined, .vundefined⟩ [] false (.vbool false) ∧
      QueryGenerator.getDelete fixTable "ks"
          ([fixBindA] ++ fixBindUnknown :: [fixBindId]) ⟨.vundefined, .vundefined⟩
          [] false =
        QueryGenerator.getDelete fixTable "ks" ([fixBindA] ++ [fixBindId])
          ⟨.vundefined, .vundefined⟩ [] false ∧
      (([fixBindA] ++ fixBindUnknown :: [fixBindId]).filter
          (fun q => (lookupColumn fixTable q.columnName).isSome)).Sublist
        ([fixBindA] ++ fixBindUnknown :: [fixBindId])) :=
  ⟨by decide,
    c6_unknown_column_symmetric_drop fixTable "ks" [fixBindA] [fixBindId]
      fixBindUnknown ⟨.vundefined, .vundefined⟩ [] false false (.vbool false)
      (by decide)⟩

/-- Column names of the surviving non-primary-key delete bindings, in
caller order — the restricted column list of `_getDeleteQuery`. -/
def restrictedDeleteCols (table : TableMetadata)
    (propertiesInfo : List PropertyInfo) : List String :=
  (((propertiesInfo.filter
        (fun p => (lookupColumn table p.columnName).isSome)).filter
      (fun p => !(pkNames table).contains p.columnName)).map
    (fun p => p.columnName))

/-- The delete query text from `FROM` onwards (everything after the column
section). -/
def deleteQueryTail (table : TableMetadata) (keyspace : String)
    (propertiesInfo whenClause : List PropertyInfo) (ifExists : Bool) :
    String :=
  " FROM " ++ keyspace ++ "." ++ table.name ++ " WHERE " ++
    joinSep " AND "
      (((propertiesInfo.filter
            (fun p => (lookupColumn table p.columnName).isSome)).filter
          (fun p => (pkNames table).contains p.columnName)).map
        (fun p => p.columnName ++ " = ?")) ++
    (if ifExists = true then " IF EXISTS"
      else if 0 < whenClause.length then
        " IF " ++ QueryGenerator.getConditionWithOperators whenClause
      else "")

/-- The two-armed conditional tail append of `_getUpdateQuery` and
`_getDeleteQuery`, expressed as an append of a conditional. -/
theorem ite_ite_append_right (c₁ c₂ : Prop) [Decidable c₁] [Decidable c₂]
    (q a b : String) :
    (if c₁ then q ++ a else if c₂ then q ++ b else q) =
      q ++ (if c₁ then a else if c₂ then b else "") := by
  split
  · rfl
  · split <;> simp

/-- **C7** — delete with the column-restricted option set (and, per the
caller contract of spec §6, well-formed non-empty identifiers): when at
least one surviving binding targets a non-primary-key column the query
lists exactly those columns, in caller order, between `DELETE` and `FROM`;
when none survives the query is the whole-row form, identical to the text
produced with the option off. -/
theorem c7_delete_only_columns (table : TableMetadata) (keyspace : String)
    (propertiesInfo whenClause : List PropertyInfo) (ifExists : Bool)
    (docInfo : GenDocInfo)
    (htruthy : docInfo.deleteOnlyColumns.truthy = true)
    (hnames : ∀ p ∈ propertiesInfo, p.columnName ≠ "") :
    (0 < (restrictedDeleteCols table propertiesInfo).length →
      (QueryGenerator.getDelete table keyspace propertiesInfo docInfo
          whenClause ifExists).query =
        "DELETE " ++
          joinSep ", " (restrictedDeleteCols table propertiesInfo) ++
          deleteQueryTail table keyspace propertiesInfo whenClause
            ifExists) ∧
    ((restrictedDeleteCols table propertiesInfo).length = 0 →
      (QueryGenerator.getDelete table keyspace propertiesInfo docInfo
          whenClause ifExists).query =
        (QueryGenerator.getDelete table keyspace propertiesInfo
            ⟨docInfo.ttl, .vbool false⟩ whenClause ifExists).query) := by
  constructor
  · intro hlen
    have hnnil : restrictedDeleteCols table propertiesInfo ≠ [] := by
      intro hnil; rw [hnil] at hlen; simp at hlen
    have hne : joinSep ", " (restrictedDeleteCols table propertiesInfo)
        ≠ "" := by
      refine joinSep_ne_empty ", " (by decide) _ hnnil ?_
      intro s hs
      obtain ⟨q, hq, rfl⟩ := List.mem_map.mp hs
      exact hnames q
        (List.mem_of_mem_filter (List.mem_of_mem_filter hq))
    simp only [QueryGenerator.getDelete, QueryGenerator.getDeleteQuery,
      htruthy, if_true, ite_ite_append_right]
    rw [show (List.map (fun p => p.columnName)
        ((List.filter (fun p => !(List.map (fun c => c.name)
            (table.partitionKeys ++ table.clusteringKeys)).contains
          p.columnName)
          (List.filter
            (fun pInfo => (lookupColumn table pInfo.columnName).isSome)
            propertiesInfo)))) =
      restrictedDeleteCols table propertiesInfo from by
        simp [restrictedDeleteCols, pkNames]]
    rw [if_neg hne]
    simp [deleteQueryTail, pkNames, String.append_assoc]
  · intro hlen
    have hnil : restrictedDeleteCols table propertiesInfo = [] :=
      List.length_eq_zero.mp hlen
    simp only [QueryGenerator.getDelete, QueryGenerator.getDeleteQuery,
      htruthy, if_true, ite_ite_append_right]
    rw [show (List.map (fun p => p.columnName)
        ((List.filter (fun p => !(List.map (fun c => c.name)
            (table.partitionKeys ++ table.clusteringKeys)).contains
          p.columnName)
          (List.filter
            (fun pInfo => (lookupColumn table pInfo.columnName).isSome)
            propertiesInfo)))) =
      restrictedDeleteCols table propertiesInfo from by
        simp [restrictedDeleteCols, pkNames]]
    rw [hnil]
    simp [joinSep, JVal.truthy]

/-- Witness for C7: with `deleteOnlyColumns` truthy, identifying binding
`id` and mutated binding `a`, the restricted list is non-empty and the
rendered text lists the column `a` between `DELETE` and `FROM`. -/
theorem c7_witness :
    (GenDocInfo.mk .vundefined (.vbool true)).deleteOnlyColumns.truthy = true ∧
    (∀ p ∈ [fixBindId, fixBindA], p.columnName ≠ "") ∧
    ((0 < (restrictedDeleteCols fixTable [fixBindId, fixBindA]).length →
        (QueryGenerator.getDelete fixTable "ks" [fixBindId, fixBindA]
            ⟨.vundefined, .vbool true⟩ [] false).query =
          "DELETE " ++
            joinSep ", " (restrictedDeleteCols fixTable
              [fixBindId, fixBindA]) ++
            deleteQueryTail fixTable "ks" [fixBindId, fixBindA] []
              false) ∧
      ((restrictedDeleteCols fixTable [fixBindId, fixBindA]).length = 0 →
        (QueryGenerator.getDelete fixTable "ks" [fixBindId, fixBindA]
            ⟨.vundefined, .vbool true⟩ [] false).query =
          (QueryGenerator.getDelete fixTable "ks" [fixBindId, fixBindA]
              ⟨(GenDocInfo.mk .vundefined (.vbool true)).ttl, .vbool false⟩ []
              false).query)) :=
  ⟨by decide, by decide,
    c7_delete_only_columns fixTable "ks" [fixBindId, fixBindA] [] false
      ⟨.vundefined, .vbool true⟩ (by decide) (by decide)⟩

/-- **C10** — the select builder and its parameter getter receive no table
schema and drop nothing: with a non-empty where-binding list the query text
carries one rendered condition per caller-supplied binding (column known or
not), and the extraction routine emits, for every binding in order, that
binding's (never empty) parameter contribution, followed by the limit value
when requested. -/
theorem c10_select_never_drops_bindings (tableName keyspace : String)
    (propertiesInfo fieldsInfo : List PropertyInfo)
    (orderByColumns : List (String × String)) (allowFilter limit : JVal)
    (doc : Doc) (docInfo : RtDocInfo) (mappingInfo : MappingInfo)
    (h : 0 < propertiesInfo.length) :
    (∃ before after,
        QueryGenerator.getSelect tableName keyspace propertiesInfo
            fieldsInfo orderByColumns allowFilter limit =
          before ++ " WHERE " ++
            joinSep " AND "
              (propertiesInfo.map (fun p =>
                QueryGenerator.getSingleCondition p.columnName p.value)) ++
            after) ∧
    (propertiesInfo.map (fun p =>
        QueryGenerator.getSingleCondition p.columnName p.value)).length =
      propertiesInfo.length ∧
    QueryGenerator.selectParamsGetter propertiesInfo limit doc docInfo
        mappingInfo =
      propertiesInfo.flatMap (fun p =>
        QueryGenerator.valueGetterSingle mappingInfo p.propertyName
          p.fromModel (doc p.propertyName)) ++
        (if limit.isNumber then [docInfo.limit] else []) ∧
    ∀ p ∈ propertiesInfo,
      QueryGenerator.valueGetterSingle mappingInfo p.propertyName
        p.fromModel (doc p.propertyName) ≠ [] := by
  refine ⟨?_, by simp, rfl, ?_⟩
  · refine ⟨"SELECT " ++
      (if 0 < fieldsInfo.length then
          joinSep ", " (fieldsInfo.map (fun p => p.columnName))
        else "*") ++ (" FROM " ++ keyspace ++ "." ++ tableName),
      (if 0 < orderByColumns.length then
          " ORDER BY " ++
            joinSep ", " (orderByColumns.map (fun o => o.1 ++ " " ++ o.2))
        else "") ++
        (if limit.isNumber then " LIMIT ?" else "") ++
        " ALLOW FILTERING", ?_⟩
    by_cases hob : 0 < orderByColumns.length <;>
      by_cases hlim : limit.isNumber = true <;>
        simp [QueryGenerator.getSelect,
          QueryGenerator.getConditionWithOperators, if_pos h, hob, hlim,
          String.append_assoc, String.empty_append, String.append_empty]
  · intro p _
    exact valueGetterSingle_ne_nil mappingInfo p.propertyName p.fromModel
      (doc p.propertyName)

/-- Witness for C10 at a concrete input: one where-binding on a column no
schema was consulted about. -/
theorem c10_witness :
    0 < ([⟨"age", "age", .vop ">" false false (.vnum 1), false⟩] :
        List PropertyInfo).length ∧
    ((∃ before after,
        QueryGenerator.getSelect "t" "ks"
            [⟨"age", "age", .vop ">" false false (.vnum 1), false⟩] [] []
            (.vbool false) .vundefined =
          before ++ " WHERE " ++
            joinSep " AND "
              (([⟨"age", "age", .vop ">" false false (.vnum 1), false⟩] :
                  List PropertyInfo).map (fun p =>
                QueryGenerator.getSingleCondition p.columnName p.value)) ++
            after) ∧
      (([⟨"age", "age", .vop ">" false false (.vnum 1), false⟩] :
          List PropertyInfo).map (fun p =>
        QueryGenerator.getSingleCondition p.columnName p.value)).length =
        ([⟨"age", "age", .vop ">" false false (.vnum 1), false⟩] :
          List PropertyInfo).length ∧
      QueryGenerator.selectParamsGetter
          [⟨"age", "age", .vop ">" false false (.vnum 1), false⟩] .vundefined
          fixDoc fixRtInfo fixMapping =
        ([⟨"age", "age", .vop ">" false false (.vnum 1), false⟩] :
            List PropertyInfo).flatMap (fun p =>
          QueryGenerator.valueGetterSingle fixMapping p.propertyName
            p.fromModel (fixDoc p.propertyName)) ++
          (if JVal.isNumber .vundefined then [fixRtInfo.limit] else []) ∧
      ∀ p ∈ ([⟨"age", "age", .vop ">" false false (.vnum 1), false⟩] :
          List PropertyInfo),
        QueryGenerator.valueGetterSingle fixMapping p.propertyName
          p.fromModel (fixDoc p.propertyName) ≠ []) :=
  ⟨by decide,
    c10_select_never_drops_bindings "t" "ks"
      [⟨"age", "age", .vop ">" false false (.vnum 1), false⟩] [] []
      (.vbool false) .vundefined fixDoc fixRtInfo fixMapping (by decide)⟩

end NodejsDriver
